import Mathlib

/-!
Verification development for the urconf repository (uptimerobot.py and
uptimerobot_syncable.py): a shallow embedding of the entity model
(Syncable / Contact / Monitor), of the per-kind reconciliation loops
(_sync_contacts / _sync_monitors), of the paginated fetch
(_api_post_paginated) and of the contact declaration helpers.

Modelling conventions:
* Python values that appear in kwargs / HTTP parameters are modelled by
  `Value` (strings, ints and None).  `str()` is `pyStr`, truthiness is
  `truthy`, the coercion `self._TYPES[key](value)` is `coerceVal`
  (Python `int()` also strips surrounding whitespace, which is not
  modelled; no theorem below depends on that).
* Python dicts are insertion-ordered association lists (`Dict`); key
  assignment is `dictSet` (replace in place, else append).
* The constant query parameters `self.params` (api_key, format), merged
  into every request, are omitted from the modelled posts: they are the
  same on every request and no claim concerns them.
* HTTP posts are recorded in a trace (`Post`); exceptions are modelled
  with `Except PyError`; a sync function returns the trace it produced
  up to the point of a raise together with its result.
-/

deriving instance DecidableEq for Except

namespace Urconf

inductive Value where
  | vStr (s : String)
  | vInt (n : Int)
  | vNone
deriving DecidableEq, Repr

/-- Python `str()` on the values we model. -/
def pyStr : Value → String
  | .vStr s => s
  | .vInt n => toString n
  | .vNone => "None"

/-- Python truthiness of a value (`if kwargs[f]:`). -/
def truthy : Value → Bool
  | .vStr s => s ≠ ""
  | .vInt n => n ≠ 0
  | .vNone => false

/-- The two declared field types in `_TYPES`: `str` and `int`. -/
inductive FType where
  | fstr
  | fint
deriving DecidableEq, Repr

/-- Python `int()` on a string: an optional sign followed by digits
(leading zeros accepted); anything else raises ValueError.  (CPython
additionally strips surrounding whitespace and accepts digit-group
underscores; no value in this development exercises those forms.) -/
def parseDigits : List Char → Option Nat
  | [] => none
  | ds =>
    if ds.all (fun c => c.isDigit) then
      some (ds.foldl (fun n c => n * 10 + (c.toNat - '0'.toNat)) 0)
    else none

def parseInt (s : String) : Option Int :=
  match s.data with
  | [] => none
  | '-' :: ds => (parseDigits ds).map (fun n => -(n : Int))
  | '+' :: ds => (parseDigits ds).map (fun n => (n : Int))
  | ds => (parseDigits ds).map (fun n => (n : Int))

/-- `self._TYPES[key](value)`: `str()` never fails; `int()` fails on a
non-numeric string and on None. -/
def coerceVal : FType → Value → Option Value
  | .fstr, v => some (.vStr (pyStr v))
  | .fint, .vInt n => some (.vInt n)
  | .fint, .vStr s => (parseInt s).map .vInt
  | .fint, .vNone => none

/-- An insertion-ordered Python dict. -/
abbrev Dict (α : Type) := List (String × α)

/-- Python dict assignment `d[k] = v`: replace the existing entry in
place, otherwise append. -/
def dictSet {α : Type} (d : Dict α) (k : String) (v : α) : Dict α :=
  match d with
  | [] => [(k, v)]
  | (k', v') :: rest => if k' = k then (k, v) :: rest else (k', v') :: dictSet rest k v

/-- The Python exceptions the modelled code can raise. -/
inductive PyError where
  | missingField (f : String)
  | typeError (f : String)
  | attributeError (a : String)
  | assertionError (msg : String)
  | apiError (msg : String)
deriving DecidableEq, Repr

def exceptOk {ε α : Type} : Except ε α → Bool
  | .ok _ => true
  | .error _ => false

/-- `Syncable.__getitem__`: a stored value, else "" for str fields and 0
for int fields.  (A key absent from `_TYPES` raises KeyError in Python;
every access in the embedded code uses a declared key.) -/
def getField (types : Dict FType) (values : Dict Value) (k : String) : Value :=
  match values.lookup k with
  | some v => v
  | none =>
    match types.lookup k with
    | some .fint => .vInt 0
    | _ => .vStr ""

/-- `Syncable.__setitem__`: `self._values[key] = self._TYPES[key](value)`. -/
def setFieldV (types : Dict FType) (values : Dict Value) (k : String) (v : Value) :
    Except PyError (Dict Value) :=
  match types.lookup k with
  | none => .error (.typeError k)
  | some t =>
    match coerceVal t v with
    | none => .error (.typeError k)
    | some cv => .ok (dictSet values k cv)

/-- One iteration of the storing loop of `Syncable.__init__`:
`if f in kwargs and kwargs[f]: self[f] = kwargs[f]`. -/
def initStep (types : Dict FType) (kwargs : Dict Value) (vals : Dict Value)
    (f : String) : Except PyError (Dict Value) :=
  match kwargs.lookup f with
  | some v => if truthy v then setFieldV types vals f v else .ok vals
  | none => .ok vals

/-- Whether `initStep` succeeds for a field (it depends only on the
field, not on the values accumulated so far). -/
def initStepOk (types : Dict FType) (kwargs : Dict Value) (f : String) : Bool :=
  match kwargs.lookup f with
  | some v =>
    if truthy v then
      match types.lookup f with
      | some t => (coerceVal t v).isSome
      | none => false
    else true
  | none => true

/-- The storing loop of `Syncable.__init__` over a field list, with
exception propagation. -/
def initFields (types : Dict FType) (kwargs : Dict Value) :
    Dict Value → List String → Except PyError (Dict Value)
  | vals, [] => .ok vals
  | vals, f :: rest =>
    match initStep types kwargs vals f with
    | .error e => .error e
    | .ok vals' => initFields types kwargs vals' rest

/-- `Syncable.__init__`: raise on the first missing required field, then
store each truthy field of `_FIELDS + ["id"]` present in kwargs. -/
def initValues (required fields : List String) (types : Dict FType)
    (kwargs : Dict Value) : Except PyError (Dict Value) :=
  match required.find? (fun f => (kwargs.lookup f).isNone) with
  | some f => .error (.missingField f)
  | none => initFields types kwargs [] (fields ++ ["id"])

/-- `Syncable.__eq__`: every declared field equal. -/
def fieldsEq (types : Dict FType) (fields : List String) (a b : Dict Value) : Bool :=
  fields.all (fun f => decide (getField types a f = getField types b f))

/-! ## Contact -/

structure Contact where
  values : Dict Value
deriving DecidableEq, Repr

def Contact.FIELDS : List String := ["value", "type", "friendlyname"]

def Contact.TYPES : Dict FType :=
  [("id", .fstr), ("friendlyname", .fstr), ("type", .fint), ("value", .fstr)]

def Contact.REQUIRED_FIELDS : List String := ["value", "type"]

def Contact.make (kwargs : Dict Value) : Except PyError Contact :=
  (initValues Contact.REQUIRED_FIELDS Contact.FIELDS Contact.TYPES kwargs).map Contact.mk

def Contact.get (c : Contact) (k : String) : Value :=
  getField Contact.TYPES c.values k

def Contact.setItem (c : Contact) (k : String) (v : Value) : Except PyError Contact :=
  (setFieldV Contact.TYPES c.values k v).map Contact.mk

/-- `Syncable.name`: the first declared field, `value` for contacts.
Stored str-typed fields are always `vStr`, so `pyStr` is the identity
on the reachable values. -/
def Contact.name (c : Contact) : String := pyStr (c.get "value")

def Contact.eq (a b : Contact) : Bool :=
  fieldsEq Contact.TYPES Contact.FIELDS a.values b.values

/-- `Contact._params_create`. -/
def Contact.paramsCreate (c : Contact) : Dict Value :=
  [("alertContactType", c.get "type"),
   ("alertContactValue", c.get "value"),
   ("alertContactFriendlyName", c.get "friendlyname")]

/-- `Contact._params_delete`. -/
def Contact.paramsDelete (c : Contact) : Dict Value :=
  [("alertContactID", c.get "id")]

/-- The class attributes `Contact.TYPE_*` defined in
uptimerobot_syncable.py.  Only TYPE_EMAIL and TYPE_BOXCAR are defined
there; uptimerobot.py also references TYPE_SMS, TYPE_TWITTER_DM,
TYPE_WEBHOOK, TYPE_PUSHBULLET and TYPE_PUSHOVER, which do not exist on
the class, so looking them up raises AttributeError. -/
def Contact.classAttr : String → Option Int
  | "TYPE_EMAIL" => some 2
  | "TYPE_BOXCAR" => some 4
  | _ => none

/-! ## Monitor -/

/-- One element of the `alertcontact` list of a getMonitors record. -/
structure ACRec where
  id : Value
  threshold : Value
  recurrence : Value
deriving DecidableEq, Repr

structure Monitor where
  values : Dict Value
  addedContacts : List (Contact × Int × Int)
  contactsStr : Option String
deriving DecidableEq, Repr

def Monitor.FIELDS : List String :=
  ["friendlyname", "url", "type", "subtype", "keywordtype",
   "keywordvalue", "httpusername", "httppassword", "port", "interval"]

def Monitor.TYPES : Dict FType :=
  [("id", .fstr), ("friendlyname", .fstr), ("url", .fstr), ("type", .fint),
   ("subtype", .fint), ("keywordtype", .fint), ("keywordvalue", .fstr),
   ("httpusername", .fstr), ("httppassword", .fstr), ("port", .fint),
   ("interval", .fint)]

def Monitor.REQUIRED_FIELDS : List String := ["friendlyname", "url", "type"]

/-- `Monitor._contact_str`: `"_".join([str(a) for a in args])`. -/
def contactStr (parts : List Value) : String :=
  "_".intercalate (parts.map pyStr)

/-- Code-point lexicographic comparison of character lists, the order
Python uses to compare strings. -/
def charListLe : List Char → List Char → Bool
  | [], _ => true
  | _ :: _, [] => false
  | a :: as, b :: bs =>
    if a < b then true else if b < a then false else charListLe as bs

def strLe (a b : String) : Bool := charListLe a.data b.data

def sLe (a b : String) : Prop := strLe a b = true

instance sLeDecidable : DecidableRel sLe :=
  fun a b => inferInstanceAs (Decidable (strLe a b = true))

/-- Python `sorted` on strings: code-point lexicographic order. -/
def pySorted (l : List String) : List String :=
  List.insertionSort sLe l

/-- `Monitor.__init__`.  The `alertcontact` kwarg (a list of dicts, as
returned by getMonitors) is modelled as a separate structured argument;
it is not among `_FIELDS`/`_REQUIRED_FIELDS`, so `Syncable.__init__`
ignores it. -/
def Monitor.make (kwargs : Dict Value) (alertcontact : Option (List ACRec)) :
    Except PyError Monitor := do
  let vals ← initValues Monitor.REQUIRED_FIELDS Monitor.FIELDS Monitor.TYPES kwargs
  let cstr := alertcontact.map (fun cs =>
    "-".intercalate (pySorted (cs.map (fun c =>
      contactStr [c.id, c.threshold, c.recurrence]))))
  return ⟨vals, [], cstr⟩

def Monitor.get (m : Monitor) (k : String) : Value :=
  getField Monitor.TYPES m.values k

def Monitor.name (m : Monitor) : String := pyStr (m.get "friendlyname")

/-- The part of the `Monitor._contacts` property that renders the
contacts added via `add_contacts`. -/
def Monitor.contactsFromAdded (m : Monitor) : String :=
  "-".intercalate (pySorted (m.addedContacts.map (fun c =>
    contactStr [c.1.get "id", .vInt c.2.1, .vInt c.2.2])))

/-- `Monitor._contacts`: `if self._contacts_str:` is a truthiness test,
so both None and "" fall through to the locally added contacts. -/
def Monitor.contacts (m : Monitor) : String :=
  match m.contactsStr with
  | some s => if s = "" then m.contactsFromAdded else s
  | none => m.contactsFromAdded

/-- `Monitor.__eq__`: field equality, then the association strings. -/
def Monitor.eq (a b : Monitor) : Bool :=
  fieldsEq Monitor.TYPES Monitor.FIELDS a.values b.values
    && (a.contacts == b.contacts)

/-- The `create_params` renaming table of `Monitor._params_create`
(it covers every field of `_FIELDS`). -/
def monitorParamName : String → String
  | "friendlyname" => "monitorFriendlyName"
  | "url" => "monitorURL"
  | "type" => "monitorType"
  | "subtype" => "monitorSubType"
  | "port" => "monitorPort"
  | "keywordtype" => "monitorKeywordType"
  | "keywordvalue" => "monitorKeywordValue"
  | "httpusername" => "monitorHTTPUsername"
  | "httppassword" => "monitorHTTPPassword"
  | "interval" => "monitorInterval"
  | s => s

/-- `Monitor._params_create`. -/
def Monitor.paramsCreate (m : Monitor) : Dict Value :=
  (Monitor.FIELDS.map (fun f => (monitorParamName f, m.get f)))
    ++ [("monitorAlertContacts", .vStr m.contacts)]

/-- `Monitor._params_update` is the same property. -/
def Monitor.paramsUpdate (m : Monitor) : Dict Value := m.paramsCreate

/-- `Monitor._params_delete`. -/
def Monitor.paramsDelete (m : Monitor) : Dict Value :=
  [("monitorID", m.get "id")]

/-- `Monitor.add_contacts(*args, threshold=.., recurrence=..)`:
append one (contact, threshold, recurrence) triple per argument. -/
def Monitor.addContacts (m : Monitor) (cs : List Contact)
    (threshold recurrence : Int) : Monitor :=
  { m with addedContacts := m.addedContacts ++ cs.map (fun c => (c, threshold, recurrence)) }

/-- A sequence of `add_contacts` calls on a monitor. -/
def foldAddContacts (m : Monitor) (calls : List (List Contact × Int × Int)) : Monitor :=
  calls.foldl (fun acc call => acc.addContacts call.1 call.2.1 call.2.2) m

/-! ## API calls and the reconciliation loops -/

structure Post where
  method : String
  params : Dict Value
deriving DecidableEq, Repr

/-- `UptimeRobot._api_delete_monitor`. -/
def apiDeleteMonitor (dryRun : Bool) (m : Monitor) : List Post :=
  if dryRun then [] else [⟨"deleteMonitor", m.paramsDelete⟩]

/-- `UptimeRobot._api_create_monitor`. -/
def apiCreateMonitor (dryRun : Bool) (m : Monitor) : List Post :=
  if dryRun then [] else [⟨"newMonitor", m.paramsCreate⟩]

/-- `UptimeRobot._api_update_monitor`: a changed `type` forces delete
plus re-create; otherwise an editMonitor with the old server id. -/
def apiUpdateMonitor (dryRun : Bool) (old new : Monitor) : List Post :=
  if old.get "type" != new.get "type" then
    apiDeleteMonitor dryRun old ++ apiCreateMonitor dryRun new
  else if dryRun then []
  else [⟨"editMonitor", dictSet new.paramsUpdate "id" (old.get "id")⟩]

/-- `UptimeRobot._api_delete_contact`. -/
def apiDeleteContact (dryRun : Bool) (c : Contact) : List Post :=
  if dryRun then [] else [⟨"deleteAlertContact", c.paramsDelete⟩]

/-- `UptimeRobot._api_create_contact`: returns the trace and the value
of `result["alertcontact"]["id"]`.  In dry-run mode no request is made
and the Python function returns None. -/
def apiCreateContact (dryRun : Bool) (c : Contact) (newId : Value) :
    List Post × Value :=
  if dryRun then ([], .vNone) else ([⟨"newAlertContact", c.paramsCreate⟩], newId)

/-- `UptimeRobot._api_update_contact`: a changed `type` forces delete
plus re-create (the created id is discarded).  Otherwise, past the
dry-run check, the code evaluates `new._params_update` - an attribute
the Contact class does not define - so Python raises AttributeError. -/
def apiUpdateContact (dryRun : Bool) (old new : Contact) (newId : Value) :
    Except PyError (List Post) :=
  if old.get "type" != new.get "type" then
    .ok (apiDeleteContact dryRun old ++ (apiCreateContact dryRun new newId).1)
  else if dryRun then .ok []
  else .error (.attributeError "_params_update")

/-- The fetched-record loop of `UptimeRobot._sync_contacts`.  `idFor`
gives the server id that a newAlertContact call for a given contact
name would return. -/
def syncContactsLoop (dryRun : Bool) (idFor : String → Value) :
    List (Dict Value) → Dict Contact → List String → List Post →
    List Post × Except PyError (Dict Contact × List String)
  | [], contacts, existing, trace => (trace, .ok (contacts, existing))
  | r :: rest, contacts, existing, trace =>
    match Contact.make r with
    | .error e => (trace, .error e)
    | .ok c =>
      match contacts.lookup c.name with
      | some desired =>
        match desired.setItem "id" (c.get "id") with
        | .error e => (trace, .error e)
        | .ok desired' =>
          let contacts' := dictSet contacts c.name desired'
          let existing' := existing ++ [c.name]
          if Contact.eq c desired' then
            syncContactsLoop dryRun idFor rest contacts' existing' trace
          else
            match apiUpdateContact dryRun c desired' (idFor desired'.name) with
            | .error e => (trace, .error e)
            | .ok t => syncContactsLoop dryRun idFor rest contacts' existing' (trace ++ t)
      | none =>
        syncContactsLoop dryRun idFor rest contacts existing
          (trace ++ apiDeleteContact dryRun c)

/-- The create-missing loop of `UptimeRobot._sync_contacts`: create
every desired contact not seen among the fetched ones and store the
returned id on it. -/
def syncContactsCreate (dryRun : Bool) (idFor : String → Value)
    (existing : List String) :
    Dict Contact → List Post × Except PyError (Dict Contact)
  | [] => ([], .ok [])
  | (n, c) :: rest =>
    if existing.contains n then
      let (t, r) := syncContactsCreate dryRun idFor existing rest
      (t, r.map (fun d => (n, c) :: d))
    else
      let (tc, cid) := apiCreateContact dryRun c (idFor n)
      match c.setItem "id" cid with
      | .error e => (tc, .error e)
      | .ok c' =>
        let (t, r) := syncContactsCreate dryRun idFor existing rest
        (tc ++ t, r.map (fun d => (n, c') :: d))

/-- `UptimeRobot._sync_contacts` on an already fetched record list:
reconcile, returning the trace and the updated desired-contact dict. -/
def syncContacts (dryRun : Bool) (idFor : String → Value)
    (fetched : List (Dict Value)) (contacts : Dict Contact) :
    List Post × Except PyError (Dict Contact) :=
  match syncContactsLoop dryRun idFor fetched contacts [] [] with
  | (t, .error e) => (t, .error e)
  | (t, .ok (contacts', existing)) =>
    match syncContactsCreate dryRun idFor existing contacts' with
    | (t2, r) => (t ++ t2, r)

/-- The fetched-record loop of `UptimeRobot._sync_monitors`. -/
def syncMonitorsLoop (dryRun : Bool) :
    List (Dict Value × Option (List ACRec)) → Dict Monitor → List String → List Post →
    List Post × Except PyError (List String)
  | [], _, existing, trace => (trace, .ok existing)
  | (r, ac) :: rest, monitors, existing, trace =>
    match Monitor.make r ac with
    | .error e => (trace, .error e)
    | .ok m =>
      match monitors.lookup m.name with
      | some desired =>
        let existing' := existing ++ [m.name]
        if Monitor.eq m desired then
          syncMonitorsLoop dryRun rest monitors existing' trace
        else
          syncMonitorsLoop dryRun rest monitors existing'
            (trace ++ apiUpdateMonitor dryRun m desired)
      | none =>
        syncMonitorsLoop dryRun rest monitors existing
          (trace ++ apiDeleteMonitor dryRun m)

/-- `UptimeRobot._sync_monitors` on an already fetched record list.
The loop never writes to the desired-monitor dict (in particular it
does not copy server ids onto desired monitors), so the dict is
returned unchanged. -/
def syncMonitors (dryRun : Bool)
    (fetched : List (Dict Value × Option (List ACRec)))
    (monitors : Dict Monitor) :
    List Post × Except PyError (Dict Monitor) :=
  match syncMonitorsLoop dryRun fetched monitors [] [] with
  | (t, .error e) => (t, .error e)
  | (t, .ok existing) =>
    (t ++ ((monitors.filter (fun p => !existing.contains p.1)).map
        (fun p => apiCreateMonitor dryRun p.2)).flatten, .ok monitors)

/-! ## Paginated fetch -/

/-- One API response as seen by `_api_post_paginated`: the pagination
metadata (after the v2 `pagination` unwrapping) and the extracted
element list (`element_func`). -/
structure Page (α : Type) where
  total : Int
  offset : Int
  limit : Int
  elems : List α

/-- The `while True` loop of `_api_post_paginated`: issue a post,
accumulate the page, and either advance `offset` or stop.  The pages
list scripts the successive server responses; running out of scripted
responses is modelled as an API error on the pending request. -/
def paginateLoop {α : Type} (method : String) :
    List (Page α) → Dict Value → List α → List Post →
    List Post × Except PyError (List α)
  | [], params, _, trace => (trace ++ [⟨method, params⟩], .error (.apiError method))
  | p :: rest, params, acc, trace =>
    let trace' := trace ++ [⟨method, params⟩]
    let acc' := acc ++ p.elems
    if p.total > p.offset + p.limit then
      paginateLoop method rest (dictSet params "offset" (.vInt (p.offset + p.limit))) acc' trace'
    else (trace', .ok acc')

/-- `UptimeRobot._api_post_paginated`. -/
def apiPostPaginated {α : Type} (method : String) (params : Dict Value)
    (pages : List (Page α)) : List Post × Except PyError (List α) :=
  paginateLoop method pages params [] []

/-- Consistent pagination metadata: every page except the last reports
more records beyond its window, and the last page does not. -/
def consistentPages {α : Type} : List (Page α) → Bool
  | [] => false
  | [p] => p.total ≤ p.offset + p.limit
  | p :: rest => (p.total > p.offset + p.limit) && consistentPages rest

/-- The posts a consistent run of `paginateLoop` issues: one per page,
the offset parameter advancing by the previous page's offset+limit. -/
def pagTrace {α : Type} (method : String) (params : Dict Value) :
    List (Page α) → List Post
  | [] => []
  | p :: rest =>
    ⟨method, params⟩ ::
      pagTrace method (dictSet params "offset" (.vInt (p.offset + p.limit))) rest

/-! ## Full sync -/

/-- `UptimeRobot.sync`: contacts first, then monitors.  The fetched
records for each kind are scripted as pages.  (In Python, desired
monitors read the ids of their associated contact objects at
serialization time through shared references; monitors here carry
contact snapshots, which is sufficient for the claims below, none of
which depends on cross-phase id propagation into monitor payloads.) -/
def sync (dryRun : Bool) (idFor : String → Value)
    (contactPages : List (Page (Dict Value)))
    (monitorPages : List (Page (Dict Value × Option (List ACRec))))
    (contacts : Dict Contact) (monitors : Dict Monitor) :
    List Post × Except PyError Unit :=
  match apiPostPaginated "getAlertContacts" [] contactPages with
  | (t1, .error e) => (t1, .error e)
  | (t1, .ok fetchedC) =>
    match syncContacts dryRun idFor fetchedC contacts with
    | (t2, .error e) => (t1 ++ t2, .error e)
    | (t2, .ok _) =>
      match apiPostPaginated "getMonitors" [("alert_contacts", .vInt 1)] monitorPages with
      | (t3, .error e) => (t1 ++ t2 ++ t3, .error e)
      | (t3, .ok fetchedM) =>
        match syncMonitors dryRun fetchedM monitors with
        | (t4, r) => (t1 ++ t2 ++ t3 ++ t4, r.map (fun _ => ()))

/-! ## Contact declaration helpers -/

/-- `UptimeRobot.contact`: note the constructor call passes the kwarg
key `friendly_name`, which is not among `Contact._FIELDS`
(`friendlyname`), so `Syncable.__init__` silently drops it. -/
def contactDecl (contacts : Dict Contact) (type : Int) (value friendlyname : String) :
    Except PyError (Dict Contact × Contact) := do
  let c ← Contact.make [("friendly_name", .vStr friendlyname),
                        ("type", .vInt type), ("value", .vStr value)]
  if (contacts.lookup c.name).isSome then
    .error (.assertionError ("Duplicate contact: " ++ c.name))
  else
    .ok (dictSet contacts c.name c, c)

/-- A type-specific helper: evaluate the `Contact.TYPE_*` class
attribute, raising AttributeError when it is not defined, then call
`self.contact`. -/
def typedContact (contacts : Dict Contact) (attr : String) (value name : String) :
    Except PyError (Dict Contact × Contact) :=
  match Contact.classAttr attr with
  | none => .error (.attributeError attr)
  | some t => contactDecl contacts t value name

/-- `UptimeRobot.email_contact`: `if not name: name = email`. -/
def emailContact (contacts : Dict Contact) (email name : String) :
    Except PyError (Dict Contact × Contact) :=
  typedContact contacts "TYPE_EMAIL" email (if name = "" then email else name)

def boxcarContact (contacts : Dict Contact) (key name : String) :
    Except PyError (Dict Contact × Contact) :=
  typedContact contacts "TYPE_BOXCAR" key name

def smsContact (contacts : Dict Contact) (number name : String) :
    Except PyError (Dict Contact × Contact) :=
  typedContact contacts "TYPE_SMS" number name

def twitterDmContact (contacts : Dict Contact) (value name : String) :
    Except PyError (Dict Contact × Contact) :=
  typedContact contacts "TYPE_TWITTER_DM" value name

def webhookContact (contacts : Dict Contact) (value name : String) :
    Except PyError (Dict Contact × Contact) :=
  typedContact contacts "TYPE_WEBHOOK" value name

def pushbulletContact (contacts : Dict Contact) (value name : String) :
    Except PyError (Dict Contact × Contact) :=
  typedContact contacts "TYPE_PUSHBULLET" value name

def pushoverContact (contacts : Dict Contact) (value name : String) :
    Except PyError (Dict Contact × Contact) :=
  typedContact contacts "TYPE_PUSHOVER" value name

/-! ## Dictionary lemmas -/

theorem lookup_dictSet_self {α : Type} (d : Dict α) (k : String) (v : α) :
    (dictSet d k v).lookup k = some v := by
  induction d with
  | nil => simp [dictSet, List.lookup]
  | cons h t ih =>
    obtain ⟨k', v'⟩ := h
    by_cases hk : k' = k
    · subst hk; simp [dictSet, List.lookup]
    · simp [dictSet, hk, List.lookup, beq_false_of_ne (Ne.symm hk), ih]

theorem lookup_dictSet_ne {α : Type} (d : Dict α) {k' k : String} (v : α)
    (h : k' ≠ k) : (dictSet d k v).lookup k' = d.lookup k' := by
  induction d with
  | nil => simp [dictSet, List.lookup, beq_false_of_ne h]
  | cons hd t ih =>
    obtain ⟨k₀, v₀⟩ := hd
    by_cases hk : k₀ = k
    · subst hk
      simp [dictSet, List.lookup, beq_false_of_ne h]
    · by_cases hk' : k' = k₀
      · subst hk'; simp [dictSet, hk, List.lookup]
      · simp [dictSet, hk, List.lookup, beq_false_of_ne hk', ih]

theorem getField_dictSet_ne (types : Dict FType) (vals : Dict Value)
    {k' k : String} (v : Value) (h : k' ≠ k) :
    getField types (dictSet vals k v) k' = getField types vals k' := by
  simp [getField, lookup_dictSet_ne vals v h]

theorem fieldsEq_congr_right (types : Dict FType) (fields : List String)
    (a b b' : Dict Value)
    (h : ∀ f ∈ fields, getField types b' f = getField types b f) :
    fieldsEq types fields a b' = fieldsEq types fields a b := by
  induction fields with
  | nil => rfl
  | cons f rest ih =>
    simp only [fieldsEq, List.all_cons] at *
    rw [h f (by simp), ih (fun g hg => h g (by simp [hg]))]

theorem fieldsEq_false_of_ne (types : Dict FType) (fields : List String)
    (a b : Dict Value) {f : String} (hf : f ∈ fields)
    (h : getField types a f ≠ getField types b f) :
    fieldsEq types fields a b = false := by
  apply Bool.eq_false_iff.mpr
  intro hall
  exact h (by simpa using (List.all_eq_true.mp hall f hf))

theorem exceptOk_map {ε α β : Type} (e : Except ε α) (f : α → β) :
    exceptOk (e.map f) = exceptOk e := by
  cases e <;> rfl

/-! ## Construction success characterization -/

theorem initStep_ok_iff (types : Dict FType) (kwargs : Dict Value)
    (vals : Dict Value) (f : String) :
    exceptOk (initStep types kwargs vals f) = initStepOk types kwargs f := by
  unfold initStep initStepOk
  cases hk : kwargs.lookup f with
  | none => rfl
  | some v =>
    by_cases ht : truthy v
    · simp only [ht, if_true]
      unfold setFieldV
      cases htf : types.lookup f with
      | none => rfl
      | some t => cases hc : coerceVal t v <;> simp [hc, exceptOk]
    · simp [ht, exceptOk]

theorem initFields_ok (types : Dict FType) (kwargs : Dict Value) :
    ∀ (fs : List String) (vals : Dict Value),
      exceptOk (initFields types kwargs vals fs)
        = fs.all (initStepOk types kwargs)
  | [], _ => rfl
  | f :: rest, vals => by
    rw [List.all_cons, ← initStep_ok_iff types kwargs vals f]
    unfold initFields
    cases h : initStep types kwargs vals f with
    | error e => simp [exceptOk]
    | ok vals' => simpa [exceptOk] using initFields_ok types kwargs rest vals'

theorem initValues_ok (required fields : List String) (types : Dict FType)
    (kwargs : Dict Value) :
    exceptOk (initValues required fields types kwargs)
      = (required.all (fun f => (kwargs.lookup f).isSome)
         && (fields ++ ["id"]).all (initStepOk types kwargs)) := by
  unfold initValues
  cases hf : required.find? (fun f => (kwargs.lookup f).isNone) with
  | some f =>
    have hp := List.find?_some hf
    have hm := List.mem_of_find?_eq_some hf
    have hreq : required.all (fun f => (kwargs.lookup f).isSome) = false := by
      apply Bool.eq_false_iff.mpr
      intro hall
      have h2 := List.all_eq_true.mp hall f hm
      simp only [Option.isNone_iff_eq_none] at hp
      simp [hp] at h2
    simp [exceptOk, hreq]
  | none =>
    have hreq : required.all (fun f => (kwargs.lookup f).isSome) = true := by
      apply List.all_eq_true.mpr
      intro x hx
      have := List.find?_eq_none.mp hf x hx
      simpa [Option.isNone_iff_eq_none, Option.isSome_iff_ne_none] using this
    simp [hreq, initFields_ok]

/-! ## Sorting and association-string lemmas -/

theorem charListLe_total : ∀ x y : List Char,
    charListLe x y = true ∨ charListLe y x = true
  | [], _ => .inl rfl
  | _ :: _, [] => .inr rfl
  | a :: as, b :: bs => by
    unfold charListLe
    rcases lt_trichotomy a b with h | h | h
    · left; simp [h]
    · subst h
      simpa [lt_irrefl] using charListLe_total as bs
    · right; simp [h]

theorem charListLe_trans : ∀ x y z : List Char,
    charListLe x y = true → charListLe y z = true → charListLe x z = true
  | [], _, _, _, _ => rfl
  | _ :: _, [], _, h1, _ => by simp [charListLe] at h1
  | _ :: _, _ :: _, [], _, h2 => by simp [charListLe] at h2
  | a :: as, b :: bs, c :: cs, h1, h2 => by
    unfold charListLe at h1 h2 ⊢
    rcases lt_trichotomy a b with hab | hab | hab
    · rcases lt_trichotomy b c with hbc | hbc | hbc
      · simp [lt_trans hab hbc]
      · subst hbc; simp [hab]
      · simp [hbc, lt_asymm hbc] at h2
    · subst hab
      rcases lt_trichotomy a c with hbc | hbc | hbc
      · simp [hbc]
      · subst hbc
        simp only [lt_irrefl, if_false] at h1 h2 ⊢
        exact charListLe_trans as bs cs h1 h2
      · simp [hbc, lt_asymm hbc] at h2
    · simp [hab, lt_asymm hab] at h1

theorem charListLe_antisymm : ∀ x y : List Char,
    charListLe x y = true → charListLe y x = true → x = y
  | [], [], _, _ => rfl
  | [], _ :: _, _, h2 => by simp [charListLe] at h2
  | _ :: _, [], h1, _ => by simp [charListLe] at h1
  | a :: as, b :: bs, h1, h2 => by
    unfold charListLe at h1 h2
    rcases lt_trichotomy a b with hab | hab | hab
    · simp [hab, lt_asymm hab] at h2
    · subst hab
      simp only [lt_irrefl, if_false] at h1 h2
      rw [charListLe_antisymm as bs h1 h2]
    · simp [hab, lt_asymm hab] at h1

theorem pySorted_eq_of_perm {l₁ l₂ : List String} (h : l₁.Perm l₂) :
    pySorted l₁ = pySorted l₂ := by
  haveI : IsTotal String sLe := ⟨fun a b => charListLe_total a.data b.data⟩
  haveI : IsTrans String sLe :=
    ⟨fun a b c h1 h2 => charListLe_trans a.data b.data c.data h1 h2⟩
  haveI : IsAntisymm String sLe :=
    ⟨fun a b h1 h2 => by
      have := charListLe_antisymm a.data b.data h1 h2
      cases a; cases b
      simp only at this
      rw [this]⟩
  exact List.eq_of_perm_of_sorted
    ((List.perm_insertionSort _ l₁).trans (h.trans (List.perm_insertionSort _ l₂).symm))
    (List.sorted_insertionSort _ l₁) (List.sorted_insertionSort _ l₂)

theorem foldAddContacts_values (calls : List (List Contact × Int × Int)) :
    ∀ m : Monitor, (foldAddContacts m calls).values = m.values := by
  induction calls with
  | nil => intro m; rfl
  | cons c rest ih =>
    intro m
    simpa [foldAddContacts, Monitor.addContacts] using
      ih (m.addContacts c.1 c.2.1 c.2.2)

theorem foldAddContacts_contactsStr (calls : List (List Contact × Int × Int)) :
    ∀ m : Monitor, (foldAddContacts m calls).contactsStr = m.contactsStr := by
  induction calls with
  | nil => intro m; rfl
  | cons c rest ih =>
    intro m
    simpa [foldAddContacts, Monitor.addContacts] using
      ih (m.addContacts c.1 c.2.1 c.2.2)

/-- A monitor constructed without an `alertcontact` kwarg has no
fetched association string and no added contacts yet. -/
theorem make_none_shape (kw : Dict Value) (m : Monitor)
    (h : Monitor.make kw none = .ok m) :
    m.contactsStr = none ∧ m.addedContacts = [] := by
  unfold Monitor.make at h
  cases hI : initValues Monitor.REQUIRED_FIELDS Monitor.FIELDS Monitor.TYPES kw with
  | error e => rw [hI] at h; cases h
  | ok vals =>
    rw [hI] at h
    cases h
    exact ⟨rfl, rfl⟩

/-- A monitor constructed from a getMonitors record with an
`alertcontact` list carries the sorted rendered association string. -/
theorem make_some_shape (kw : Dict Value) (m : Monitor) (acs : List ACRec)
    (h : Monitor.make kw (some acs) = .ok m) :
    m.contactsStr = some ("-".intercalate (pySorted (acs.map (fun c =>
      contactStr [c.id, c.threshold, c.recurrence]))))
    ∧ m.addedContacts = [] := by
  unfold Monitor.make at h
  cases hI : initValues Monitor.REQUIRED_FIELDS Monitor.FIELDS Monitor.TYPES kw with
  | error e => rw [hI] at h; cases h
  | ok vals =>
    rw [hI] at h
    cases h
    exact ⟨rfl, rfl⟩

/-! ## Effect of storing the server id on a desired contact -/

theorem Contact_get_setId (c : Contact) (v : Value) {k : String} (hk : k ≠ "id") :
    Contact.get ⟨dictSet c.values "id" v⟩ k = c.get k := by
  simp only [Contact.get]
  exact getField_dictSet_ne Contact.TYPES c.values v hk

theorem contactEq_setId (a b : Contact) (v : Value) :
    Contact.eq a ⟨dictSet b.values "id" v⟩ = Contact.eq a b := by
  unfold Contact.eq
  apply fieldsEq_congr_right
  intro f hf
  simp only [Contact.FIELDS] at hf
  fin_cases hf <;> exact getField_dictSet_ne _ _ _ (by decide)

theorem contactParamsCreate_setId (c : Contact) (v : Value) :
    Contact.paramsCreate ⟨dictSet c.values "id" v⟩ = c.paramsCreate := by
  unfold Contact.paramsCreate
  rw [Contact_get_setId c v (show "type" ≠ "id" by decide),
      Contact_get_setId c v (show "value" ≠ "id" by decide),
      Contact_get_setId c v (show "friendlyname" ≠ "id" by decide)]

/-! ## Pagination lemmas -/

theorem paginateLoop_consistent {α : Type} (method : String) :
    ∀ (rs : List (Page α)), consistentPages rs = true →
    ∀ (params : Dict Value) (acc : List α) (trace : List Post),
      paginateLoop method rs params acc trace
        = (trace ++ pagTrace method params rs,
           .ok (acc ++ (rs.map Page.elems).flatten))
  | [], h => by simp [consistentPages] at h
  | [p], h => by
    intro params acc trace
    simp only [consistentPages, decide_eq_true_eq] at h
    simp only [paginateLoop, pagTrace]
    rw [if_neg (not_lt.mpr h)]
    simp
  | p :: q :: rest, h => by
    intro params acc trace
    simp only [consistentPages, Bool.and_eq_true, decide_eq_true_eq] at h
    have ih := paginateLoop_consistent method (q :: rest) h.2
      (dictSet params "offset" (.vInt (p.offset + p.limit)))
      (acc ++ p.elems) (trace ++ [⟨method, params⟩])
    have hstep : paginateLoop method (p :: q :: rest) params acc trace
        = if p.total > p.offset + p.limit then
            paginateLoop method (q :: rest)
              (dictSet params "offset" (.vInt (p.offset + p.limit)))
              (acc ++ p.elems) (trace ++ [⟨method, params⟩])
          else (trace ++ [⟨method, params⟩], .ok (acc ++ p.elems)) := rfl
    rw [hstep, if_pos h.1, ih]
    simp [pagTrace]

theorem pagTrace_length {α : Type} (method : String) :
    ∀ (rs : List (Page α)) (params : Dict Value),
      (pagTrace method params rs).length = rs.length
  | [], _ => rfl
  | p :: rest, params => by
    simp [pagTrace, pagTrace_length method rest]

theorem pagTrace_method {α : Type} (method : String) :
    ∀ (rs : List (Page α)) (params : Dict Value) (p : Post),
      p ∈ pagTrace method params rs → p.method = method
  | [], _, p, h => by simp [pagTrace] at h
  | r :: rest, params, p, h => by
    simp only [pagTrace, List.mem_cons] at h
    rcases h with rfl | h
    · rfl
    · exact pagTrace_method method rest _ p h

theorem pagTrace_offset {α : Type} (method : String) :
    ∀ (rs : List (Page α)) (params : Dict Value) (i : Nat) (p : Post) (q : Page α),
      (pagTrace method params rs)[i + 1]? = some p → rs[i]? = some q →
      p.params.lookup "offset" = some (.vInt (q.offset + q.limit))
  | [], _, i, p, q, hp, _ => by simp [pagTrace] at hp
  | r :: rest, params, 0, p, q, hp, hq => by
    simp only [pagTrace, List.getElem?_cons_succ] at hp
    simp only [List.getElem?_cons_zero, Option.some.injEq] at hq
    subst hq
    cases rest with
    | nil => simp [pagTrace] at hp
    | cons r2 rest2 =>
      simp only [pagTrace, List.getElem?_cons_zero, Option.some.injEq] at hp
      subst hp
      simp [lookup_dictSet_self]
  | r :: rest, params, i + 1, p, q, hp, hq => by
    simp only [pagTrace, List.getElem?_cons_succ] at hp hq
    exact pagTrace_offset method rest _ i p q hp hq

theorem paginateLoop_trace_superset {α : Type} (method : String) :
    ∀ (rs : List (Page α)) (params : Dict Value) (acc : List α) (trace : List Post),
      ∀ p ∈ trace, p ∈ (paginateLoop method rs params acc trace).1
  | [], params, acc, trace, p, hp => by
    simp only [paginateLoop]
    exact List.mem_append_left _ hp
  | r :: rest, params, acc, trace, p, hp => by
    simp only [paginateLoop]
    split
    · exact paginateLoop_trace_superset method rest _ _ _ p
        (List.mem_append_left _ hp)
    · exact List.mem_append_left _ hp

theorem paginateLoop_trace_method {α : Type} (method : String) :
    ∀ (rs : List (Page α)) (params : Dict Value) (acc : List α) (trace : List Post),
      (∀ p ∈ trace, p.method = method) →
      ∀ p ∈ (paginateLoop method rs params acc trace).1, p.method = method
  | [], params, acc, trace, htr, p, hp => by
    simp only [paginateLoop] at hp
    rcases List.mem_append.mp hp with h | h
    · exact htr p h
    · simp only [List.mem_singleton] at h
      subst h
      rfl
  | r :: rest, params, acc, trace, htr, p, hp => by
    simp only [paginateLoop] at hp
    split at hp
    · refine paginateLoop_trace_method method rest _ _ _ ?_ p hp
      intro x hx
      rcases List.mem_append.mp hx with h | h
      · exact htr x h
      · simp only [List.mem_singleton] at h
        subst h
        rfl
    · rcases List.mem_append.mp hp with h | h
      · exact htr p h
      · simp only [List.mem_singleton] at h
        subst h
        rfl

theorem paginateLoop_emits {α : Type} (method : String) :
    ∀ (rs : List (Page α)) (params : Dict Value) (acc : List α) (trace : List Post),
      ∃ p ∈ (paginateLoop method rs params acc trace).1, p.method = method
  | [], params, acc, trace => by
    refine ⟨⟨method, params⟩, ?_, rfl⟩
    simp [paginateLoop]
  | r :: rest, params, acc, trace => by
    simp only [paginateLoop]
    split
    · exact paginateLoop_emits method rest _ _ _
    · exact ⟨⟨method, params⟩, by simp, rfl⟩

/-! ## Dry-run traces -/

theorem apiUpdateContact_dry (old new : Contact) (v : Value) :
    apiUpdateContact true old new v = .ok [] := by
  unfold apiUpdateContact apiDeleteContact apiCreateContact
  split <;> rfl

theorem apiUpdateMonitor_dry (old new : Monitor) :
    apiUpdateMonitor true old new = [] := by
  unfold apiUpdateMonitor apiDeleteMonitor apiCreateMonitor
  split <;> rfl

theorem syncContactsLoop_dry_trace (idFor : String → Value) :
    ∀ (fetched : List (Dict Value)) (cs : Dict Contact) (ex : List String)
      (tr : List Post),
      (syncContactsLoop true idFor fetched cs ex tr).1 = tr
  | [], _, _, _ => rfl
  | r :: rest, cs, ex, tr => by
    cases hm : Contact.make r with
    | error e => simp [syncContactsLoop, hm]
    | ok c =>
      cases hl : cs.lookup c.name with
      | none =>
        simp only [syncContactsLoop, hm, hl]
        rw [show apiDeleteContact true c = [] from rfl, List.append_nil]
        exact syncContactsLoop_dry_trace idFor rest cs ex tr
      | some desired =>
        cases hs : desired.setItem "id" (c.get "id") with
        | error e => simp [syncContactsLoop, hm, hl, hs]
        | ok desired' =>
          by_cases he : Contact.eq c desired' = true
          · simp only [syncContactsLoop, hm, hl, hs]
            rw [if_pos he]
            exact syncContactsLoop_dry_trace idFor rest _ _ tr
          · simp only [syncContactsLoop, hm, hl, hs]
            rw [if_neg he, apiUpdateContact_dry]
            show (syncContactsLoop true idFor rest (dictSet cs c.name desired')
              (ex ++ [c.name]) (tr ++ [])).1 = tr
            rw [List.append_nil]
            exact syncContactsLoop_dry_trace idFor rest _ _ tr

theorem syncContactsCreate_dry_trace (idFor : String → Value) (ex : List String) :
    ∀ cs : Dict Contact, (syncContactsCreate true idFor ex cs).1 = []
  | [] => rfl
  | (n, c) :: rest => by
    have ih := syncContactsCreate_dry_trace idFor ex rest
    cases hrec : syncContactsCreate true idFor ex rest with
    | mk t r =>
      rw [hrec] at ih
      simp only at ih
      by_cases hc : n ∈ ex
      · simp [syncContactsCreate, hc, hrec, ih]
      · simp [syncContactsCreate, hc, hrec, ih, apiCreateContact, Contact.setItem,
          setFieldV, Contact.TYPES, List.lookup, coerceVal, pyStr, Except.map]

theorem syncContacts_dry_trace (idFor : String → Value)
    (fetched : List (Dict Value)) (cs : Dict Contact) :
    (syncContacts true idFor fetched cs).1 = [] := by
  unfold syncContacts
  cases hL : syncContactsLoop true idFor fetched cs [] [] with
  | mk t r =>
    have ht : t = [] := by
      have := syncContactsLoop_dry_trace idFor fetched cs [] []
      rw [hL] at this
      exact this
    cases r with
    | error e => simpa using ht
    | ok pr =>
      obtain ⟨cs', ex⟩ := pr
      subst ht
      cases hC : syncContactsCreate true idFor ex cs' with
      | mk t2 r2 =>
        have ht2 : t2 = [] := by
          have := syncContactsCreate_dry_trace idFor ex cs'
          rw [hC] at this
          exact this
        simp [hC, ht2]

theorem syncMonitorsLoop_dry_trace :
    ∀ (fetched : List (Dict Value × Option (List ACRec))) (ms : Dict Monitor)
      (ex : List String) (tr : List Post),
      (syncMonitorsLoop true fetched ms ex tr).1 = tr
  | [], _, _, _ => rfl
  | (r, ac) :: rest, ms, ex, tr => by
    cases hm : Monitor.make r ac with
    | error e => simp [syncMonitorsLoop, hm]
    | ok m =>
      cases hl : ms.lookup m.name with
      | none =>
        simp only [syncMonitorsLoop, hm, hl]
        rw [show apiDeleteMonitor true m = [] from rfl, List.append_nil]
        exact syncMonitorsLoop_dry_trace rest ms ex tr
      | some desired =>
        simp only [syncMonitorsLoop, hm, hl]
        by_cases he : Monitor.eq m desired = true
        · rw [if_pos he]
          exact syncMonitorsLoop_dry_trace rest ms _ tr
        · rw [if_neg he, apiUpdateMonitor_dry, List.append_nil]
          exact syncMonitorsLoop_dry_trace rest ms _ tr

theorem syncMonitors_dry_trace (fetched : List (Dict Value × Option (List ACRec)))
    (ms : Dict Monitor) :
    (syncMonitors true fetched ms).1 = [] := by
  unfold syncMonitors
  cases hL : syncMonitorsLoop true fetched ms [] [] with
  | mk t r =>
    have ht : t = [] := by
      have := syncMonitorsLoop_dry_trace fetched ms [] []
      rw [hL] at this
      exact this
    cases r with
    | error e => simpa using ht
    | ok ex =>
      subst ht
      simp [apiCreateMonitor]

/-! ## Claims -/

/-- C3: evaluation of the code at the claim's scenario.  The desired
set is built by `email_contact("e@mail", name="email1")` and the remote
has no contacts.  A non-dry-run contact reconciliation issues exactly
one newAlertContact post with type 2 and value "e@mail", and the id
returned by the create ("0725") is stored on the desired contact - but
the posted friendly name is "", not "email1": `contact()` passes the
kwarg `friendly_name` while `Contact._FIELDS` declares `friendlyname`,
so the name is silently dropped at construction. -/
theorem C3_email_contact_create_eval :
    emailContact [] "e@mail" "email1"
      = .ok ([("e@mail", ⟨[("value", .vStr "e@mail"), ("type", .vInt 2)]⟩)],
             ⟨[("value", .vStr "e@mail"), ("type", .vInt 2)]⟩)
    ∧ syncContacts false (fun _ => .vStr "0725") []
        [("e@mail", ⟨[("value", .vStr "e@mail"), ("type", .vInt 2)]⟩)]
      = ([⟨"newAlertContact",
           [("alertContactType", .vInt 2), ("alertContactValue", .vStr "e@mail"),
            ("alertContactFriendlyName", .vStr "")]⟩],
         .ok [("e@mail", ⟨[("value", .vStr "e@mail"), ("type", .vInt 2),
                           ("id", .vStr "0725")]⟩)])
    ∧ (Contact.mk [("value", .vStr "e@mail"), ("type", .vInt 2)]).get "friendlyname"
        = .vStr "" := by
  exact ⟨rfl, rfl, rfl⟩

/-- C7: evaluation of the contact declaration helpers.  email_contact
and boxcar_contact construct contacts with type codes 2 and 4, but
sms_contact, twitter_dm_contact, webhook_contact, pushbullet_contact
and pushover_contact raise AttributeError: the class constants
TYPE_SMS, TYPE_TWITTER_DM, TYPE_WEBHOOK, TYPE_PUSHBULLET and
TYPE_PUSHOVER they reference are not defined on Contact. -/
theorem C7_contact_type_helpers_eval :
    smsContact [] "12345" "sms1" = .error (.attributeError "TYPE_SMS")
    ∧ twitterDmContact [] "v" "n" = .error (.attributeError "TYPE_TWITTER_DM")
    ∧ webhookContact [] "v" "n" = .error (.attributeError "TYPE_WEBHOOK")
    ∧ pushbulletContact [] "v" "n" = .error (.attributeError "TYPE_PUSHBULLET")
    ∧ pushoverContact [] "v" "n" = .error (.attributeError "TYPE_PUSHOVER")
    ∧ emailContact [] "e@mail" "n"
        = .ok ([("e@mail", ⟨[("value", .vStr "e@mail"), ("type", .vInt 2)]⟩)],
               ⟨[("value", .vStr "e@mail"), ("type", .vInt 2)]⟩)
    ∧ (Contact.mk [("value", .vStr "e@mail"), ("type", .vInt 2)]).get "type" = .vInt 2
    ∧ boxcarContact [] "k" "n"
        = .ok ([("k", ⟨[("value", .vStr "k"), ("type", .vInt 4)]⟩)],
               ⟨[("value", .vStr "k"), ("type", .vInt 4)]⟩)
    ∧ (Contact.mk [("value", .vStr "k"), ("type", .vInt 4)]).get "type" = .vInt 4 := by
  exact ⟨rfl, rfl, rfl, rfl, rfl, rfl, rfl, rfl, rfl⟩

/-- C9, counterexample: a Contact input carrying both required fields
(value and type) but a non-numeric string for the int-typed field
`type` fails construction, so "when all required fields are present,
construction succeeds" is false on the code. -/
theorem C9_counterexample :
    (([("value", Value.vStr "v"), ("type", Value.vStr "oops")] : Dict Value).lookup
        "value").isSome = true
    ∧ (([("value", Value.vStr "v"), ("type", Value.vStr "oops")] : Dict Value).lookup
        "type").isSome = true
    ∧ Contact.make [("value", .vStr "v"), ("type", .vStr "oops")]
        = .error (.typeError "type") := by
  refine ⟨rfl, rfl, by decide⟩

/-- C9 as amended: for both kinds, construction succeeds if and only if
every required field (Contact: value, type; Monitor: friendlyname, url,
type) is present in the input AND every supplied truthy field value
coerces to the field's declared type; in particular a missing required
field always fails, and coercion failure is the only other failure. -/
theorem C9_construction_validation (kwc kwm : Dict Value)
    (ac : Option (List ACRec)) :
    (exceptOk (Contact.make kwc)
      = (Contact.REQUIRED_FIELDS.all (fun f => (kwc.lookup f).isSome)
         && (Contact.FIELDS ++ ["id"]).all (initStepOk Contact.TYPES kwc)))
    ∧ (exceptOk (Monitor.make kwm ac)
      = (Monitor.REQUIRED_FIELDS.all (fun f => (kwm.lookup f).isSome)
         && (Monitor.FIELDS ++ ["id"]).all (initStepOk Monitor.TYPES kwm))) := by
  constructor
  · rw [← initValues_ok Contact.REQUIRED_FIELDS Contact.FIELDS Contact.TYPES kwc]
    unfold Contact.make
    exact exceptOk_map _ _
  · rw [← initValues_ok Monitor.REQUIRED_FIELDS Monitor.FIELDS Monitor.TYPES kwm]
    unfold Monitor.make
    cases initValues Monitor.REQUIRED_FIELDS Monitor.FIELDS Monitor.TYPES kwm <;> rfl

/-- C6: two desired monitors (no server-fetched association string)
holding the same multiset of (contact, threshold, recurrence) triples
in any insertion orders have identical canonical association strings,
and the string is each triple rendered with `_contact_str`, sorted
lexicographically and joined with "-". -/
theorem C6_association_order_independence (m₁ m₂ : Monitor)
    (h₁ : m₁.contactsStr = none) (h₂ : m₂.contactsStr = none)
    (hperm : m₁.addedContacts.Perm m₂.addedContacts) :
    m₁.contacts = m₂.contacts
    ∧ m₁.contacts = "-".intercalate (pySorted (m₁.addedContacts.map (fun c =>
        contactStr [c.1.get "id", .vInt c.2.1, .vInt c.2.2]))) := by
  constructor
  · simp only [Monitor.contacts, h₁, h₂, Monitor.contactsFromAdded]
    rw [pySorted_eq_of_perm (hperm.map _)]
  · simp [Monitor.contacts, h₁, Monitor.contactsFromAdded]

/-- Witness for C6 at concrete monitors with the same two association
triples inserted in opposite orders. -/
theorem C6_witness :
    (Monitor.mk [] [(⟨[("id", Value.vStr "2")]⟩, 5, 0), (⟨[("id", Value.vStr "1")]⟩, 0, 0)]
       none).contacts
      = (Monitor.mk [] [(⟨[("id", Value.vStr "1")]⟩, 0, 0), (⟨[("id", Value.vStr "2")]⟩, 5, 0)]
          none).contacts
    ∧ (Monitor.mk [] [(⟨[("id", Value.vStr "2")]⟩, 5, 0), (⟨[("id", Value.vStr "1")]⟩, 0, 0)]
        none).contacts = "1_0_0-2_5_0" := by
  have h := C6_association_order_independence
    (Monitor.mk [] [(⟨[("id", Value.vStr "2")]⟩, 5, 0), (⟨[("id", Value.vStr "1")]⟩, 0, 0)] none)
    (Monitor.mk [] [(⟨[("id", Value.vStr "1")]⟩, 0, 0), (⟨[("id", Value.vStr "2")]⟩, 5, 0)] none)
    rfl rfl (by decide)
  refine ⟨h.1, ?_⟩
  rw [h.2]
  decide

/-- C5: a Monitor built from a desired declaration plus a sequence of
`add_contacts` calls, and a Monitor built from the equivalent
server-fetched record (same field values; association triples rendering
to the same multiset of strings) are equal under `Monitor.__eq__` and
their canonical association strings are byte-identical. -/
theorem C5_round_trip (kw₁ kw₂ : Dict Value) (base m₂ : Monitor)
    (acs : List ACRec) (calls : List (List Contact × Int × Int))
    (h₁ : Monitor.make kw₁ none = .ok base)
    (h₂ : Monitor.make kw₂ (some acs) = .ok m₂)
    (hf : ∀ f ∈ Monitor.FIELDS, base.get f = m₂.get f)
    (hassoc : ((foldAddContacts base calls).addedContacts.map (fun c =>
        contactStr [c.1.get "id", .vInt c.2.1, .vInt c.2.2])).Perm
      (acs.map (fun a => contactStr [a.id, a.threshold, a.recurrence]))) :
    Monitor.eq (foldAddContacts base calls) m₂ = true
    ∧ (foldAddContacts base calls).contacts = m₂.contacts := by
  obtain ⟨hb₁, _⟩ := make_none_shape kw₁ base h₁
  obtain ⟨hm₂, hm₂a⟩ := make_some_shape kw₂ m₂ acs h₂
  have hstr : (foldAddContacts base calls).contacts = m₂.contacts := by
    have hcs : (foldAddContacts base calls).contactsStr = none := by
      rw [foldAddContacts_contactsStr, hb₁]
    have hfrom : (foldAddContacts base calls).contacts
        = "-".intercalate (pySorted (acs.map (fun a =>
            contactStr [a.id, a.threshold, a.recurrence]))) := by
      simp only [Monitor.contacts, hcs, Monitor.contactsFromAdded]
      rw [pySorted_eq_of_perm hassoc]
    rw [hfrom]
    simp only [Monitor.contacts, hm₂]
    by_cases hs : "-".intercalate (pySorted (acs.map (fun a =>
        contactStr [a.id, a.threshold, a.recurrence]))) = ""
    · rw [if_pos hs, hs]
      simp only [Monitor.contactsFromAdded, hm₂a, List.map_nil]
      rfl
    · rw [if_neg hs]
  refine ⟨?_, hstr⟩
  unfold Monitor.eq
  have hfields : fieldsEq Monitor.TYPES Monitor.FIELDS
      (foldAddContacts base calls).values m₂.values = true := by
    apply List.all_eq_true.mpr
    intro f hfm
    have := hf f hfm
    simp only [Monitor.get] at this
    rw [foldAddContacts_values]
    simpa using this
  rw [hfields, hstr]
  simp

/-- Witness for C5: the smtp2 scenario, declared locally with one
associated contact (id 012345, threshold 5) against the equivalent
fetched record. -/
theorem C5_witness :
    Monitor.eq
      (foldAddContacts
        (Monitor.mk [("friendlyname", Value.vStr "smtp2"), ("url", Value.vStr "host2"),
                     ("type", Value.vInt 4), ("port", Value.vInt 25)] [] none)
        [([⟨[("id", Value.vStr "012345")]⟩], 5, 0)])
      (Monitor.mk [("friendlyname", Value.vStr "smtp2"), ("url", Value.vStr "host2"),
                   ("type", Value.vInt 4), ("port", Value.vInt 25),
                   ("id", Value.vStr "123403")] [] (some "012345_5_0")) = true := by
  have h := C5_round_trip
    [("friendlyname", Value.vStr "smtp2"), ("url", Value.vStr "host2"),
     ("type", Value.vInt 4), ("port", Value.vInt 25)]
    [("friendlyname", Value.vStr "smtp2"), ("url", Value.vStr "host2"),
     ("type", Value.vInt 4), ("port", Value.vInt 25), ("id", Value.vStr "123403")]
    (Monitor.mk [("friendlyname", Value.vStr "smtp2"), ("url", Value.vStr "host2"),
                 ("type", Value.vInt 4), ("port", Value.vInt 25)] [] none)
    (Monitor.mk [("friendlyname", Value.vStr "smtp2"), ("url", Value.vStr "host2"),
                 ("type", Value.vInt 4), ("port", Value.vInt 25),
                 ("id", Value.vStr "123403")] [] (some "012345_5_0"))
    [⟨Value.vStr "012345", Value.vInt 5, Value.vInt 0⟩]
    [([⟨[("id", Value.vStr "012345")]⟩], 5, 0)]
    (by decide) (by decide) (by decide) (by decide)
  exact h.1

/-- C4, counterexample: a fetched monitor (id "123401") whose identity
"ssh1" is present in the desired set with equal fields; monitor
reconciliation completes without posts, yet the desired monitor's
server id is NOT populated (it stays at the default ""), because
`_sync_monitors` - unlike `_sync_contacts` - has no id-copy statement. -/
theorem C4_counterexample :
    Monitor.make [("friendlyname", Value.vStr "ssh1"), ("url", Value.vStr "host1"),
                  ("type", Value.vInt 4), ("port", Value.vInt 22),
                  ("id", Value.vStr "123401")] none
      = .ok (Monitor.mk [("friendlyname", Value.vStr "ssh1"), ("url", Value.vStr "host1"),
              ("type", Value.vInt 4), ("port", Value.vInt 22),
              ("id", Value.vStr "123401")] [] none)
    ∧ (Monitor.mk [("friendlyname", Value.vStr "ssh1"), ("url", Value.vStr "host1"),
        ("type", Value.vInt 4), ("port", Value.vInt 22),
        ("id", Value.vStr "123401")] [] none).get "id" = .vStr "123401"
    ∧ syncMonitors false
        [([("friendlyname", Value.vStr "ssh1"), ("url", Value.vStr "host1"),
           ("type", Value.vInt 4), ("port", Value.vInt 22),
           ("id", Value.vStr "123401")], none)]
        [("ssh1", Monitor.mk [("friendlyname", Value.vStr "ssh1"),
            ("url", Value.vStr "host1"), ("type", Value.vInt 4),
            ("port", Value.vInt 22)] [] none)]
      = ([], .ok [("ssh1", Monitor.mk [("friendlyname", Value.vStr "ssh1"),
            ("url", Value.vStr "host1"), ("type", Value.vInt 4),
            ("port", Value.vInt 22)] [] none)])
    ∧ (Monitor.mk [("friendlyname", Value.vStr "ssh1"), ("url", Value.vStr "host1"),
        ("type", Value.vInt 4), ("port", Value.vInt 22)] [] none).get "id"
        ≠ .vStr "123401" := by
  decide

/-- C4 as amended: contact reconciliation copies the fetched entity's
server id onto the matching desired contact regardless of whether an
update is emitted (shown for the equal case and the type-change case,
the two cases in which the run completes); monitor reconciliation
performs no such copy - it returns the desired monitor dict unchanged
whenever it completes. -/
theorem C4_server_id_copy (rc : Dict Value) (oldC newC : Contact) (oid : String)
    (idFor : String → Value)
    (hck : Contact.make rc = .ok oldC)
    (hcname : oldC.name = newC.name)
    (hid : oldC.get "id" = .vStr oid)
    (hcase : Contact.eq oldC newC = true ∨ oldC.get "type" ≠ newC.get "type") :
    (∃ cs', (syncContacts false idFor [rc] [(newC.name, newC)]).2 = .ok cs'
      ∧ (cs'.lookup newC.name).map (fun c => c.get "id") = some (.vStr oid))
    ∧ ∀ (dry : Bool) (fetched : List (Dict Value × Option (List ACRec)))
        (ms ms' : Dict Monitor) (t : List Post),
        syncMonitors dry fetched ms = (t, .ok ms') → ms' = ms := by
  constructor
  · have hset : newC.setItem "id" (oldC.get "id")
        = .ok ⟨dictSet newC.values "id" (.vStr oid)⟩ := by
      rw [hid]
      rfl
    have hlook : ([(newC.name, newC)] : Dict Contact).lookup oldC.name = some newC := by
      rw [hcname]
      simp [List.lookup]
    have hdict : dictSet [(newC.name, newC)] oldC.name
        ⟨dictSet newC.values "id" (.vStr oid)⟩
        = [(newC.name, (⟨dictSet newC.values "id" (.vStr oid)⟩ : Contact))] := by
      rw [hcname]
      simp [dictSet]
    have hfinal : syncContactsCreate false idFor (([] : List String) ++ [oldC.name])
        [(newC.name, (⟨dictSet newC.values "id" (.vStr oid)⟩ : Contact))]
        = ([], .ok [(newC.name, (⟨dictSet newC.values "id" (.vStr oid)⟩ : Contact))]) := by
      rw [hcname]
      simp [syncContactsCreate, List.contains, Except.map]
    have hgid : (⟨dictSet newC.values "id" (.vStr oid)⟩ : Contact).get "id"
        = .vStr oid := by
      simp [Contact.get, getField, lookup_dictSet_self]
    rcases hcase with heq | hne
    · have heq' : Contact.eq oldC ⟨dictSet newC.values "id" (.vStr oid)⟩ = true := by
        rw [contactEq_setId, heq]
      refine ⟨[(newC.name, ⟨dictSet newC.values "id" (.vStr oid)⟩)], ?_, ?_⟩
      · simp only [syncContacts, syncContactsLoop, hck, hlook, hset, hdict, heq',
          if_true, hfinal]
      · simp [List.lookup, hgid]
    · have hne' : Contact.eq oldC ⟨dictSet newC.values "id" (.vStr oid)⟩ = false := by
        rw [contactEq_setId]
        exact fieldsEq_false_of_ne Contact.TYPES Contact.FIELDS _ _
          (show "type" ∈ Contact.FIELDS by decide) hne
      have hupd : apiUpdateContact false oldC ⟨dictSet newC.values "id" (.vStr oid)⟩
          (idFor (Contact.name ⟨dictSet newC.values "id" (.vStr oid)⟩))
          = .ok [⟨"deleteAlertContact", oldC.paramsDelete⟩,
                 ⟨"newAlertContact", newC.paramsCreate⟩] := by
        unfold apiUpdateContact
        rw [Contact_get_setId newC _ (show "type" ≠ "id" by decide)]
        rw [if_pos (bne_iff_ne.mpr hne)]
        simp [apiDeleteContact, apiCreateContact, contactParamsCreate_setId]
      refine ⟨[(newC.name, ⟨dictSet newC.values "id" (.vStr oid)⟩)], ?_, ?_⟩
      · simp only [syncContacts, syncContactsLoop, hck, hlook, hset, hdict, hne',
          if_false, hupd, hfinal, Bool.false_eq_true]
      · simp [List.lookup, hgid]
  · intro dry fetched ms ms' t h
    unfold syncMonitors at h
    cases hL : syncMonitorsLoop dry fetched ms [] [] with
    | mk tr r =>
      rw [hL] at h
      cases r with
      | error e => simp at h
      | ok ex =>
        simp only [Prod.mk.injEq] at h
        exact (Except.ok.inj h.2).symm

/-- Witness for C4 at a concrete fetched contact (id "012345") equal to
the desired contact, plus the monitor half at a concrete completed run. -/
theorem C4_witness :
    (∃ cs', (syncContacts false (fun _ => Value.vStr "9")
        [[("value", Value.vStr "e@mail"), ("type", Value.vInt 2),
          ("id", Value.vStr "012345")]]
        [("e@mail", ⟨[("value", Value.vStr "e@mail"), ("type", Value.vInt 2)]⟩)]).2
        = .ok cs'
      ∧ (cs'.lookup "e@mail").map (fun c => c.get "id") = some (.vStr "012345"))
    ∧ ∀ (dry : Bool) (fetched : List (Dict Value × Option (List ACRec)))
        (ms ms' : Dict Monitor) (t : List Post),
        syncMonitors dry fetched ms = (t, .ok ms') → ms' = ms := by
  have h := C4_server_id_copy
    [("value", Value.vStr "e@mail"), ("type", Value.vInt 2), ("id", Value.vStr "012345")]
    ⟨[("value", Value.vStr "e@mail"), ("type", Value.vInt 2), ("id", Value.vStr "012345")]⟩
    ⟨[("value", Value.vStr "e@mail"), ("type", Value.vInt 2)]⟩
    "012345" (fun _ => Value.vStr "9")
    (by decide) (by decide) (by decide) (.inl (by decide))
  exact h

/-- C1: for a server-fetched entity and a desired entity of the same
kind sharing an identity but differing in `type`, a non-dry-run
reconciliation emits exactly one Delete of the existing entity followed
by exactly one Create of the desired entity, and never an Update
(editMonitor / editAlertContact) - for both Monitor and Contact. -/
theorem C1_type_change_delete_then_create
    (rm : Dict Value) (acm : Option (List ACRec)) (oldM newM : Monitor)
    (hmk : Monitor.make rm acm = .ok oldM)
    (hname : oldM.name = newM.name)
    (htype : oldM.get "type" ≠ newM.get "type")
    (rc : Dict Value) (oldC newC : Contact)
    (hck : Contact.make rc = .ok oldC)
    (hcname : oldC.name = newC.name)
    (hctype : oldC.get "type" ≠ newC.get "type")
    (idFor : String → Value) :
    syncMonitors false [(rm, acm)] [(newM.name, newM)]
      = ([⟨"deleteMonitor", [("monitorID", oldM.get "id")]⟩,
          ⟨"newMonitor", newM.paramsCreate⟩], .ok [(newM.name, newM)])
    ∧ (∀ p ∈ (syncMonitors false [(rm, acm)] [(newM.name, newM)]).1,
        p.method ≠ "editMonitor")
    ∧ (∃ newC' : Contact,
        syncContacts false idFor [rc] [(newC.name, newC)]
          = ([⟨"deleteAlertContact", [("alertContactID", oldC.get "id")]⟩,
              ⟨"newAlertContact", newC.paramsCreate⟩], .ok [(newC.name, newC')]))
    ∧ (∀ p ∈ (syncContacts false idFor [rc] [(newC.name, newC)]).1,
        p.method ≠ "editAlertContact") := by
  have hlookM : ([(newM.name, newM)] : Dict Monitor).lookup oldM.name = some newM := by
    rw [hname]
    simp [List.lookup]
  have heqM : Monitor.eq oldM newM = false := by
    unfold Monitor.eq
    rw [fieldsEq_false_of_ne Monitor.TYPES Monitor.FIELDS oldM.values newM.values
      (show "type" ∈ Monitor.FIELDS by decide) htype]
    rfl
  have hupdM : apiUpdateMonitor false oldM newM
      = [⟨"deleteMonitor", [("monitorID", oldM.get "id")]⟩,
         ⟨"newMonitor", newM.paramsCreate⟩] := by
    unfold apiUpdateMonitor
    rw [if_pos (bne_iff_ne.mpr htype)]
    simp [apiDeleteMonitor, apiCreateMonitor, Monitor.paramsDelete]
  have hM : syncMonitors false [(rm, acm)] [(newM.name, newM)]
      = ([⟨"deleteMonitor", [("monitorID", oldM.get "id")]⟩,
          ⟨"newMonitor", newM.paramsCreate⟩], .ok [(newM.name, newM)]) := by
    simp only [syncMonitors, syncMonitorsLoop, hmk, hlookM]
    rw [heqM]
    simp only [Bool.false_eq_true, if_false, hupdM, hname, List.nil_append]
    simp
  have hset : newC.setItem "id" (oldC.get "id")
      = .ok ⟨dictSet newC.values "id" (.vStr (pyStr (oldC.get "id")))⟩ := rfl
  have hlookC : ([(newC.name, newC)] : Dict Contact).lookup oldC.name = some newC := by
    rw [hcname]
    simp [List.lookup]
  have hdict : dictSet [(newC.name, newC)] oldC.name
      (⟨dictSet newC.values "id" (.vStr (pyStr (oldC.get "id")))⟩ : Contact)
      = [(newC.name, (⟨dictSet newC.values "id" (.vStr (pyStr (oldC.get "id")))⟩ : Contact))] := by
    rw [hcname]
    simp [dictSet]
  have heqC : Contact.eq oldC ⟨dictSet newC.values "id" (.vStr (pyStr (oldC.get "id")))⟩
      = false := by
    rw [contactEq_setId]
    exact fieldsEq_false_of_ne Contact.TYPES Contact.FIELDS _ _
      (show "type" ∈ Contact.FIELDS by decide) hctype
  have hupdC : apiUpdateContact false oldC
      ⟨dictSet newC.values "id" (.vStr (pyStr (oldC.get "id")))⟩
      (idFor (Contact.name ⟨dictSet newC.values "id" (.vStr (pyStr (oldC.get "id")))⟩))
      = .ok [⟨"deleteAlertContact", [("alertContactID", oldC.get "id")]⟩,
             ⟨"newAlertContact", newC.paramsCreate⟩] := by
    unfold apiUpdateContact
    rw [Contact_get_setId newC _ (show "type" ≠ "id" by decide)]
    rw [if_pos (bne_iff_ne.mpr hctype)]
    simp [apiDeleteContact, apiCreateContact, contactParamsCreate_setId,
      Contact.paramsDelete]
  have hfinal : syncContactsCreate false idFor [oldC.name]
      [(newC.name, (⟨dictSet newC.values "id" (.vStr (pyStr (oldC.get "id")))⟩ : Contact))]
      = ([], .ok [(newC.name,
          (⟨dictSet newC.values "id" (.vStr (pyStr (oldC.get "id")))⟩ : Contact))]) := by
    rw [hcname]
    simp [syncContactsCreate, List.contains, Except.map]
  have hC : syncContacts false idFor [rc] [(newC.name, newC)]
      = ([⟨"deleteAlertContact", [("alertContactID", oldC.get "id")]⟩,
          ⟨"newAlertContact", newC.paramsCreate⟩],
         .ok [(newC.name,
           (⟨dictSet newC.values "id" (.vStr (pyStr (oldC.get "id")))⟩ : Contact))]) := by
    simp only [syncContacts, syncContactsLoop, hck, hlookC, hset, hdict, heqC,
      hupdC, hfinal, Bool.false_eq_true, if_false, List.nil_append, List.append_nil]
  refine ⟨hM, ?_, ⟨_, hC⟩, ?_⟩
  · intro p hp
    rw [hM] at hp
    simp only [List.mem_cons, List.not_mem_nil, or_false] at hp
    rcases hp with rfl | rfl <;> simp
  · intro p hp
    rw [hC] at hp
    simp only [List.mem_cons, List.not_mem_nil, or_false] at hp
    rcases hp with rfl | rfl <;> simp

/-- Witness for C1: fetched keyword monitor "kw1" (type 2) vs desired
port monitor "kw1" (type 4), and fetched email contact (type 2) vs
desired sms-typed contact (type 1) with the same value. -/
theorem C1_witness :
    syncMonitors false
      [([("friendlyname", Value.vStr "kw1"), ("url", Value.vStr "http://fake"),
         ("type", Value.vInt 2), ("id", Value.vStr "123401")], none)]
      [("kw1", Monitor.mk [("friendlyname", Value.vStr "kw1"),
          ("url", Value.vStr "fake"), ("type", Value.vInt 4),
          ("port", Value.vInt 80)] [] none)]
      = ([⟨"deleteMonitor", [("monitorID", Value.vStr "123401")]⟩,
          ⟨"newMonitor", (Monitor.mk [("friendlyname", Value.vStr "kw1"),
            ("url", Value.vStr "fake"), ("type", Value.vInt 4),
            ("port", Value.vInt 80)] [] none).paramsCreate⟩],
         .ok [("kw1", Monitor.mk [("friendlyname", Value.vStr "kw1"),
            ("url", Value.vStr "fake"), ("type", Value.vInt 4),
            ("port", Value.vInt 80)] [] none)])
    ∧ ∃ newC' : Contact,
        syncContacts false (fun _ => Value.vStr "9")
          [[("value", Value.vStr "e@mail"), ("type", Value.vInt 2),
            ("id", Value.vStr "012345")]]
          [("e@mail", ⟨[("value", Value.vStr "e@mail"), ("type", Value.vInt 1)]⟩)]
          = ([⟨"deleteAlertContact", [("alertContactID", Value.vStr "012345")]⟩,
              ⟨"newAlertContact", (⟨[("value", Value.vStr "e@mail"),
                ("type", Value.vInt 1)]⟩ : Contact).paramsCreate⟩],
             .ok [("e@mail", newC')]) := by
  have h := C1_type_change_delete_then_create
    [("friendlyname", Value.vStr "kw1"), ("url", Value.vStr "http://fake"),
     ("type", Value.vInt 2), ("id", Value.vStr "123401")] none
    (Monitor.mk [("friendlyname", Value.vStr "kw1"), ("url", Value.vStr "http://fake"),
        ("type", Value.vInt 2), ("id", Value.vStr "123401")] [] none)
    (Monitor.mk [("friendlyname", Value.vStr "kw1"), ("url", Value.vStr "fake"),
        ("type", Value.vInt 4), ("port", Value.vInt 80)] [] none)
    (by decide) (by decide) (by decide)
    [("value", Value.vStr "e@mail"), ("type", Value.vInt 2), ("id", Value.vStr "012345")]
    ⟨[("value", Value.vStr "e@mail"), ("type", Value.vInt 2), ("id", Value.vStr "012345")]⟩
    ⟨[("value", Value.vStr "e@mail"), ("type", Value.vInt 1)]⟩
    (by decide) (by decide) (by decide)
    (fun _ => Value.vStr "9")
  exact ⟨h.1, h.2.2.1⟩

/-- C10: in dry-run mode, a desired contact absent from the remote
state gets its `id` field set to the string "None" (the stringified
None returned by the suppressed create), rather than left unset; a
monitor subsequently associated with that contact embeds "None" in its
canonical association string. -/
theorem C10_dry_run_stores_None_id (c : Contact) (n : String)
    (idFor : String → Value) :
    ∃ c' : Contact,
      syncContacts true idFor [] [(n, c)] = ([], .ok [(n, c')])
      ∧ c'.get "id" = .vStr "None"
      ∧ ∀ m : Monitor, m.contactsStr = none → m.addedContacts = [] →
          (m.addContacts [c'] 5 0).contacts = "None_5_0" := by
  refine ⟨⟨dictSet c.values "id" (.vStr "None")⟩, ?_, ?_, ?_⟩
  · simp [syncContacts, syncContactsLoop, syncContactsCreate, apiCreateContact,
      Contact.setItem, setFieldV, Contact.TYPES, List.lookup, coerceVal, pyStr,
      Except.map]
  · simp [Contact.get, getField, lookup_dictSet_self]
  · intro m h1 h2
    have hid : (⟨dictSet c.values "id" (.vStr "None")⟩ : Contact).get "id"
        = .vStr "None" := by
      simp [Contact.get, getField, lookup_dictSet_self]
    simp only [Monitor.addContacts, Monitor.contacts, Monitor.contactsFromAdded,
      h1, h2, List.nil_append, List.map_cons, List.map_nil, List.map, hid]
    rfl

theorem apiPostPaginated_method {α : Type} (method : String) (base : Dict Value)
    (pages : List (Page α)) (t : List Post) (r : Except PyError (List α))
    (h : apiPostPaginated method base pages = (t, r)) :
    ∀ p ∈ t, p.method = method := by
  intro p hp
  refine paginateLoop_trace_method method pages base [] []
    (by intro x hx; simp at hx) p ?_
  rw [show paginateLoop method pages base [] [] = (t, r) from h]
  exact hp

theorem apiPostPaginated_emits {α : Type} (method : String) (base : Dict Value)
    (pages : List (Page α)) (t : List Post) (r : Except PyError (List α))
    (h : apiPostPaginated method base pages = (t, r)) :
    ∃ p ∈ t, p.method = method := by
  have := paginateLoop_emits method pages base [] []
  rwa [show paginateLoop method pages base [] [] = (t, r) from h] at this

/-- C2: with dry-run enabled, for every desired and remote state the
full sync issues only fetch posts (every post in the trace is a
getAlertContacts or getMonitors request, so no newMonitor, editMonitor,
deleteMonitor, newAlertContact, editAlertContact or deleteAlertContact
reaches the API); a getAlertContacts fetch is always issued, and
whenever the run completes a getMonitors fetch was issued too. -/
theorem C2_dry_run (idFor : String → Value)
    (cPages : List (Page (Dict Value)))
    (mPages : List (Page (Dict Value × Option (List ACRec))))
    (cs : Dict Contact) (ms : Dict Monitor) :
    (∀ p ∈ (sync true idFor cPages mPages cs ms).1,
        p.method = "getAlertContacts" ∨ p.method = "getMonitors")
    ∧ (∃ p ∈ (sync true idFor cPages mPages cs ms).1,
        p.method = "getAlertContacts")
    ∧ ((sync true idFor cPages mPages cs ms).2 = .ok () →
        ∃ p ∈ (sync true idFor cPages mPages cs ms).1,
          p.method = "getMonitors") := by
  unfold sync
  split
  · rename_i t1 e heq
    exact ⟨fun p hp => .inl (apiPostPaginated_method _ _ _ _ _ heq p hp),
      apiPostPaginated_emits _ _ _ _ _ heq, fun h => absurd h (by simp)⟩
  · rename_i t1 fetchedC heq
    split
    · rename_i t2 e heq2
      have ht2 : t2 = [] := by
        have := syncContacts_dry_trace idFor fetchedC cs
        rw [heq2] at this
        exact this
      subst ht2
      refine ⟨?_, ?_, fun h => absurd h (by simp)⟩
      · intro p hp
        simp only [List.append_nil] at hp
        exact .inl (apiPostPaginated_method _ _ _ _ _ heq p hp)
      · obtain ⟨p, hp, hpm⟩ := apiPostPaginated_emits _ _ _ _ _ heq
        exact ⟨p, by simp [hp], hpm⟩
    · rename_i t2 cs' heq2
      have ht2 : t2 = [] := by
        have := syncContacts_dry_trace idFor fetchedC cs
        rw [heq2] at this
        exact this
      subst ht2
      split
      · rename_i t3 e heq3
        refine ⟨?_, ?_, fun h => absurd h (by simp)⟩
        · intro p hp
          simp only [List.append_nil, List.mem_append] at hp
          rcases hp with hp | hp
          · exact .inl (apiPostPaginated_method _ _ _ _ _ heq p hp)
          · exact .inr (apiPostPaginated_method _ _ _ _ _ heq3 p hp)
        · obtain ⟨p, hp, hpm⟩ := apiPostPaginated_emits _ _ _ _ _ heq
          exact ⟨p, by simp [hp], hpm⟩
      · rename_i t3 fetchedM heq3
        cases hD : syncMonitors true fetchedM ms with
        | mk t4 r4 =>
          have ht4 : t4 = [] := by
            have := syncMonitors_dry_trace fetchedM ms
            rw [hD] at this
            exact this
          subst ht4
          refine ⟨?_, ?_, ?_⟩
          · intro p hp
            simp only [List.append_nil, List.mem_append] at hp
            rcases hp with hp | hp
            · exact .inl (apiPostPaginated_method _ _ _ _ _ heq p hp)
            · exact .inr (apiPostPaginated_method _ _ _ _ _ heq3 p hp)
          · obtain ⟨p, hp, hpm⟩ := apiPostPaginated_emits _ _ _ _ _ heq
            exact ⟨p, by simp [hp], hpm⟩
          · intro _
            obtain ⟨p, hp, hpm⟩ := apiPostPaginated_emits _ _ _ _ _ heq3
            exact ⟨p, by simp [hp], hpm⟩

/-- Witness for C2: a concrete dry-run sync (one consistent empty page
per kind, one desired contact): the trace holds exactly the two fetch
posts and the run completes. -/
theorem C2_witness :
    (∀ p ∈ (sync true (fun _ => Value.vStr "1") [⟨0, 0, 50, []⟩] [⟨0, 0, 50, []⟩]
        [("a", ⟨[("value", Value.vStr "a"), ("type", Value.vInt 2)]⟩)] []).1,
        p.method = "getAlertContacts" ∨ p.method = "getMonitors")
    ∧ (∃ p ∈ (sync true (fun _ => Value.vStr "1") [⟨0, 0, 50, []⟩] [⟨0, 0, 50, []⟩]
        [("a", ⟨[("value", Value.vStr "a"), ("type", Value.vInt 2)]⟩)] []).1,
        p.method = "getAlertContacts")
    ∧ (∃ p ∈ (sync true (fun _ => Value.vStr "1") [⟨0, 0, 50, []⟩] [⟨0, 0, 50, []⟩]
        [("a", ⟨[("value", Value.vStr "a"), ("type", Value.vInt 2)]⟩)] []).1,
        p.method = "getMonitors") := by
  have h := C2_dry_run (fun _ => Value.vStr "1") [⟨0, 0, 50, []⟩] [⟨0, 0, 50, []⟩]
    [("a", ⟨[("value", Value.vStr "a"), ("type", Value.vInt 2)]⟩)] []
  exact ⟨h.1, h.2.1, h.2.2 (by decide)⟩

/-- C8: for every response sequence with consistent pagination metadata
the paginated fetch returns the in-order concatenation of all pages
(every record exactly once, in server-reported order), issues exactly
one post per page - terminating on the first page whose total fits in
offset+limit - and each post after the first carries the offset
advanced to the previous page's offset + limit. -/
theorem C8_paginated_fetch {α : Type} (method : String) (base : Dict Value)
    (rs : List (Page α)) (h : consistentPages rs = true) :
    (apiPostPaginated method base rs).2 = .ok ((rs.map Page.elems).flatten)
    ∧ (apiPostPaginated method base rs).1.length = rs.length
    ∧ (∀ p ∈ (apiPostPaginated method base rs).1, p.method = method)
    ∧ ∀ (i : Nat) (p : Post) (q : Page α),
        (apiPostPaginated method base rs).1[i + 1]? = some p → rs[i]? = some q →
        p.params.lookup "offset" = some (.vInt (q.offset + q.limit)) := by
  have hrun := paginateLoop_consistent method rs h base [] []
  unfold apiPostPaginated
  rw [hrun]
  refine ⟨rfl, ?_, ?_, ?_⟩
  · simp [pagTrace_length]
  · intro p hp
    simp only [List.nil_append] at hp
    exact pagTrace_method method rs base p hp
  · intro i p q hp hq
    simp only [List.nil_append] at hp
    exact pagTrace_offset method rs base i p q hp hq

/-- Witness for C8: two consistent pages (total 3, limit 2): the fetch
returns all three records in order, posts twice, and the second post
carries offset 2. -/
theorem C8_witness :
    (apiPostPaginated "getMonitors" ([] : Dict Value)
        [⟨3, 0, 2, [10, 20]⟩, ⟨3, 2, 2, ([30] : List Nat)⟩]).2 = .ok [10, 20, 30]
    ∧ (apiPostPaginated "getMonitors" ([] : Dict Value)
        [⟨3, 0, 2, [10, 20]⟩, ⟨3, 2, 2, ([30] : List Nat)⟩]).1.length = 2
    ∧ (∀ p ∈ (apiPostPaginated "getMonitors" ([] : Dict Value)
        [⟨3, 0, 2, [10, 20]⟩, ⟨3, 2, 2, ([30] : List Nat)⟩]).1,
        p.method = "getMonitors")
    ∧ (apiPostPaginated "getMonitors" ([] : Dict Value)
        [⟨3, 0, 2, [10, 20]⟩, ⟨3, 2, 2, ([30] : List Nat)⟩]).1[1]?
      = some ⟨"getMonitors", [("offset", Value.vInt 2)]⟩ := by
  have h := C8_paginated_fetch "getMonitors" ([] : Dict Value)
    [⟨3, 0, 2, [10, 20]⟩, ⟨3, 2, 2, ([30] : List Nat)⟩] (by decide)
  exact ⟨h.1, h.2.1, h.2.2.1, by decide⟩

/-- Witness for C10: a concrete dry-run create of contact "new@mail"
and a concrete monitor associated with it afterwards. -/
theorem C10_witness :
    ∃ c' : Contact,
      syncContacts true (fun _ => Value.vStr "x") []
        [("new@mail", ⟨[("value", Value.vStr "new@mail"), ("type", Value.vInt 2)]⟩)]
        = ([], .ok [("new@mail", c')])
      ∧ c'.get "id" = .vStr "None"
      ∧ ((Monitor.mk [("friendlyname", Value.vStr "m1")] [] none).addContacts
          [c'] 5 0).contacts = "None_5_0" := by
  obtain ⟨c', h1, h2, h3⟩ := C10_dry_run_stores_None_id
    ⟨[("value", Value.vStr "new@mail"), ("type", Value.vInt 2)]⟩ "new@mail"
    (fun _ => Value.vStr "x")
  exact ⟨c', h1, h2, h3 _ rfl rfl⟩

end Urconf
